import Mathlib

/-!
Shallow embedding of the SalesBase backend's Deal Stage Transition &
Automation Engine (the `PUT /deals/:dealId/stage` handler, its helpers
`processAutomationRules` / `executeAutomationRule`, the rule-selection SQL
query, and the cache-aside helper `getOrSetCache` from `backend/cache.js`),
together with proofs about the embedded definitions.

Conventions of the embedding:
* SQL tables are Lean lists of rows, in insertion (creation) order; an
  `INSERT` appends, an `UPDATE ... WHERE id = x` maps over the list.
* Probabilities and money values are `Rat` (the database stores exact
  decimals for these columns).
* A query that can throw at runtime (the per-rule action queries inside
  `executeAutomationRule`, and the redis calls inside `getOrSetCache`) is
  modelled with an explicit error-injection parameter ("oracle"): the
  oracle says whether that call throws and with which message.  A throwing
  query has no effect on the state.
* JavaScript truthiness of `x || d` on strings/numbers is modelled
  explicitly (`none`, the empty string and `0` fall back to the default).
-/

namespace SalesBase

/-- Row of `pipeline_stages`. -/
structure Stage where
  id : Nat
  name : String
  display_order : Nat
  win_probability : Rat
  is_active : Bool
deriving DecidableEq

/-- Row of `deals` (the columns the transition handler touches or reads). -/
structure Deal where
  id : Nat
  assigned_user_id : Nat
  pipeline_stage_id : Nat
  value : Rat
  probability : Rat
  status : String
deriving DecidableEq

/-- Row of `deal_stage_history` as inserted by the handler. -/
structure HistoryRow where
  deal_id : Nat
  from_stage_id : Nat
  to_stage_id : Nat
  changed_by_user_id : Nat
  notes : String
deriving DecidableEq

/-- The `action_data` JSON payload of an automation rule.  Fields that the
executor reads with a `||` fallback are `Option`s; `probability` is the
payload of `update_probability` rules. -/
structure ActionData where
  probability : Rat
  title : Option String
  description : Option String
  assigned_user_id : Option Nat
  days_from_now : Option Nat
  recipient_user_id : Option Nat
  template : Option String
deriving DecidableEq

/-- Row of `automation_rules`.  `id` is the serial primary key, so the order
of `id`s is creation order. -/
structure AutomationRule where
  id : Nat
  name : String
  from_stage_id : Option Nat
  to_stage_id : Option Nat
  action_type : String
  action_data : ActionData
  priority : Int
  is_active : Bool
deriving DecidableEq

/-- Row of `automation_log` as inserted by `executeAutomationRule`. -/
structure LogRow where
  rule_id : Nat
  deal_id : Nat
  executed_by_user_id : Nat
  execution_result : String
  error_message : Option String
deriving DecidableEq

/-- Row of `activities` as inserted by the `create_task` action. -/
structure Activity where
  type : String
  subject : String
  description : String
  deal_id : Nat
  user_id : Nat
  due_days_from_now : Nat
  status : String
deriving DecidableEq

/-- Row of `email_queue` as inserted by the `send_email` action. -/
structure EmailRow where
  deal_id : Nat
  recipient_user_id : Nat
  template_name : String
  status : String
deriving DecidableEq

/-- The database state visible to the transition handler. -/
structure DB where
  stages : List Stage
  deals : List Deal
  automation_rules : List AutomationRule
  history : List HistoryRow
  automation_log : List LogRow
  activities : List Activity
  email_queue : List EmailRow
deriving DecidableEq

/-- JavaScript `o || d` for an optional number: `undefined` and `0` are
falsy and fall back to the default. -/
def jsOrNat (o : Option Nat) (d : Nat) : Nat :=
  match o with
  | some n => if n = 0 then d else n
  | none => d

/-- JavaScript `o || d` for an optional string: `undefined` and `""` are
falsy and fall back to the default. -/
def jsOrStr (o : Option String) (d : String) : String :=
  match o with
  | some s => if s = "" then d else s
  | none => d

/-- The WHERE clause of the rule-selection query in `processAutomationRules`:
`is_active = true AND (from_stage_id = $1 OR from_stage_id IS NULL)
AND (to_stage_id = $2 OR to_stage_id IS NULL)`. -/
def ruleMatches (fromStageId toStageId : Nat) (r : AutomationRule) : Bool :=
  r.is_active && (r.from_stage_id == none || r.from_stage_id == some fromStageId)
    && (r.to_stage_id == none || r.to_stage_id == some toStageId)

/-- Comparison used by `ORDER BY priority DESC`. -/
def priorityGE (a b : AutomationRule) : Prop := b.priority ≤ a.priority

instance : DecidableRel priorityGE := fun a b =>
  inferInstanceAs (Decidable (b.priority ≤ a.priority))

instance : IsTotal AutomationRule priorityGE :=
  ⟨fun a b => le_total b.priority a.priority⟩

instance : IsTrans AutomationRule priorityGE :=
  ⟨fun _ _ _ h1 h2 => le_trans h2 h1⟩

/-- One concrete execution of the rule-selection query: filter the table by
the WHERE clause, then sort by `priority DESC` with a stable sort, so that
rows of equal priority stay in table (creation) order.  This is one of the
row orders the SQL query may return; `isSelectRulesResult` below captures
everything the query text actually guarantees. -/
def selectRules (rules : List AutomationRule) (fromStageId toStageId : Nat) :
    List AutomationRule :=
  List.insertionSort priorityGE (rules.filter (ruleMatches fromStageId toStageId))

/-- What the SQL text `SELECT * FROM automation_rules WHERE ... ORDER BY
priority DESC` guarantees about a result list: it is some permutation of the
rows matching the WHERE clause that is sorted by priority descending.  With
no secondary sort key, the relative order of equal-priority rows is not
specified. -/
def isSelectRulesResult (rules : List AutomationRule) (fromStageId toStageId : Nat)
    (out : List AutomationRule) : Prop :=
  List.Perm out (rules.filter (ruleMatches fromStageId toStageId))
    ∧ List.Sorted priorityGE out

/-- Embedding of `executeAutomationRule(client, rule, dealId, userId)`.
`oracle rule.id = some msg` injects a runtime exception (with message `msg`)
into the rule's action query — the situation the function's `try/catch`
guards against; a throwing query has no effect.  On success the switch on
`action_type` performs the action (`default:` is a no-op) and a `success`
log row is appended; on an exception the `catch` block appends a `failed`
log row carrying `error.message`. -/
def executeAutomationRule (oracle : Nat → Option String) (db : DB)
    (rule : AutomationRule) (dealId userId : Nat) : DB :=
  match oracle rule.id with
  | some msg =>
    { db with automation_log := db.automation_log ++
        [{ rule_id := rule.id, deal_id := dealId, executed_by_user_id := userId,
           execution_result := "failed", error_message := some msg }] }
  | none =>
    let db1 : DB :=
      if rule.action_type = "create_task" then
        { db with activities := db.activities ++
            [{ type := "task",
               subject := jsOrStr rule.action_data.title "Follow up required",
               description := jsOrStr rule.action_data.description "Automated task created",
               deal_id := dealId,
               user_id := jsOrNat rule.action_data.assigned_user_id userId,
               due_days_from_now := jsOrNat rule.action_data.days_from_now 1,
               status := "pending" }] }
      else if rule.action_type = "send_email" then
        { db with email_queue := db.email_queue ++
            [{ deal_id := dealId,
               recipient_user_id := jsOrNat rule.action_data.recipient_user_id userId,
               template_name := jsOrStr rule.action_data.template "stage_transition",
               status := "pending" }] }
      else if rule.action_type = "update_probability" then
        { db with deals := db.deals.map (fun d =>
            if d.id = dealId then { d with probability := rule.action_data.probability }
            else d) }
      else db
    { db1 with automation_log := db1.automation_log ++
        [{ rule_id := rule.id, deal_id := dealId, executed_by_user_id := userId,
           execution_result := "success", error_message := none }] }

/-- Embedding of `processAutomationRules(client, dealId, fromStageId,
toStageId, userId)`: select the applicable rules, then execute them in
order.  Its own `catch` swallows any error, so it never throws into the
enclosing transaction. -/
def processAutomationRules (oracle : Nat → Option String) (db : DB)
    (dealId fromStageId toStageId userId : Nat) : DB :=
  (selectRules db.automation_rules fromStageId toStageId).foldl
    (fun d r => executeAutomationRule oracle d r dealId userId) db

/-- The automation-log row that executing `r` appends, as a function of the
error oracle alone (the row does not depend on the intermediate database). -/
def logRowFor (oracle : Nat → Option String) (r : AutomationRule)
    (dealId userId : Nat) : LogRow :=
  match oracle r.id with
  | some msg =>
    { rule_id := r.id, deal_id := dealId, executed_by_user_id := userId,
      execution_result := "failed", error_message := some msg }
  | none =>
    { rule_id := r.id, deal_id := dealId, executed_by_user_id := userId,
      execution_result := "success", error_message := none }

/-- How one rule execution transforms the tracked deal's probability:
a successfully executed `update_probability` rule overwrites it, every
other outcome leaves it alone. -/
def probStep (oracle : Nat → Option String) (p : Rat) (r : AutomationRule) : Rat :=
  match oracle r.id with
  | some _ => p
  | none => if r.action_type = "update_probability" then r.action_data.probability else p

/-- The deal's probability after executing a list of rules in order. -/
def probAfter (oracle : Nat → Option String) (p : Rat)
    (l : List AutomationRule) : Rat :=
  l.foldl (probStep oracle) p

/-- Parsed request body of `PUT /deals/:dealId/stage` (after JSON parsing;
Joi validation is modelled by `validateBody`). -/
structure Body where
  stage_id : Int
  notes : Option String
  trigger_automation : Option Bool
deriving DecidableEq

/-- The authenticated user attached to the request by the auth middleware. -/
structure ReqUser where
  userId : Nat
  role : String
deriving DecidableEq

/-- Joi schema of the body: `stage_id` a positive integer (required),
`notes` a string of at most 500 characters (the empty string allowed),
`trigger_automation` a boolean defaulting to `true`. -/
def validateBody (b : Body) : Bool :=
  0 < b.stage_id &&
    (match b.notes with
     | none => true
     | some s => s.length ≤ 500)

/-- Outcome of the route handler, by HTTP status: 400 validation failure,
404 `Deal not found`, 403 `Access denied`, or the 200 payload carrying the
row returned by the step-3 `UPDATE ... RETURNING *`, the two stage names of
the `transition` object, and the `automation_triggered` flag. -/
inductive TransitionResult where
  | validationError : TransitionResult
  | notFound : TransitionResult
  | accessDenied : TransitionResult
  | ok : Deal → String → String → Bool → TransitionResult
deriving DecidableEq

/-- Lookup used to model the joins of the handler's SELECT. -/
def findStage (stages : List Stage) (sid : Nat) : Option Stage :=
  stages.find? (fun s => s.id == sid)

/-- Lookup of the deal row by primary key. -/
def findDeal (deals : List Deal) (did : Nat) : Option Deal :=
  deals.find? (fun d => d.id == did)

/-- Database after step 3 (the `UPDATE deals SET pipeline_stage_id = $1,
probability = $2 ... WHERE id = $3`) and step 4 (the `INSERT INTO
deal_stage_history`). -/
def dbAfterPrimary (db : DB) (dealId stageId : Nat) (winProb : Rat)
    (fromStageId userId : Nat) (notes : Option String) : DB :=
  { db with
      deals := db.deals.map (fun d =>
        if d.id = dealId then
          { d with pipeline_stage_id := stageId, probability := winProb }
        else d),
      history := db.history ++
        [{ deal_id := dealId, from_stage_id := fromStageId, to_stage_id := stageId,
           changed_by_user_id := userId, notes := jsOrStr notes "" }] }

/-- Embedding of the `PUT /deals/:dealId/stage` handler.  The single SELECT
joins the deal with its current stage and with the target stage, so a
missing deal, a missing current stage or a missing target stage all produce
the same 404 (the query has no `is_active` condition on the target stage).
The permission check compares the assigned user and the `admin` role.  On
the success path the deal row is updated to the target stage with the
target stage's `win_probability`, one history row is appended, automation
runs iff `trigger_automation` (default `true`), and the 200 body carries
the deal row as returned by the step-3 UPDATE — not re-read after
automation. -/
def transitionStage (oracle : Nat → Option String) (db : DB) (dealId : Nat)
    (body : Body) (user : ReqUser) : TransitionResult × DB :=
  if validateBody body = false then
    (TransitionResult.validationError, db)
  else
    match findDeal db.deals dealId with
    | none => (TransitionResult.notFound, db)
    | some deal =>
      match findStage db.stages deal.pipeline_stage_id,
            findStage db.stages body.stage_id.toNat with
      | some psCur, some psNew =>
        if deal.assigned_user_id ≠ user.userId ∧ user.role ≠ "admin" then
          (TransitionResult.accessDenied, db)
        else
          let stageId := body.stage_id.toNat
          let db2 := dbAfterPrimary db dealId stageId psNew.win_probability
            deal.pipeline_stage_id user.userId body.notes
          let trig := body.trigger_automation.getD true
          let db3 :=
            if trig then
              processAutomationRules oracle db2 dealId deal.pipeline_stage_id
                stageId user.userId
            else db2
          (TransitionResult.ok
            { deal with pipeline_stage_id := stageId,
                        probability := psNew.win_probability }
            psCur.name psNew.name trig, db3)
      | _, _ => (TransitionResult.notFound, db)

/-- The redis store behind `cache.js`: keyed string values with an absolute
expiry instant (`SET key val EX ttl`). -/
structure Cache where
  entries : List (String × String × Nat)
deriving DecidableEq

/-- `redis.get key` at time `now`: redis returns the stored string while it
is unexpired and `null` afterwards (or when the key was never set). -/
def cacheGet (c : Cache) (now : Nat) (key : String) : Option String :=
  match c.entries.find? (fun e => e.1 == key) with
  | some e => if now < e.2.2 then some e.2.1 else none
  | none => none

/-- `redis.set key v { EX: ttl }` at time `now`. -/
def cacheSet (c : Cache) (now ttl : Nat) (key v : String) : Cache :=
  { entries := (key, v, now + ttl) :: c.entries.filter (fun e => ¬ e.1 == key) }

/-- Failure of a redis call (`redis.get` / `redis.set` rejecting because the
cache backend is unavailable). -/
inductive CacheErr where
  | unavailable : CacheErr
deriving DecidableEq

/-- Embedding of `getOrSetCache(key, fetchFunc, ttl)` from
`backend/cache.js`, over values of type `α` with explicit JSON
serialization `ser`/`deser`.  `gErr`/`sErr` inject a rejection of the
`redis.get` / `redis.set` call; the source has no `try/catch`, so an
injected rejection propagates to the caller.  A stored empty string is
falsy in `if (cached)` and is treated as a miss.  The `Nat` in the result
counts invocations of `fetchFunc`. -/
def getOrSetCache {α : Type} (gErr sErr : Option CacheErr)
    (ser : α → String) (deser : String → α) (key : String)
    (fetchFunc : Unit → α) (ttl : Nat) (c : Cache) (now : Nat) :
    Except CacheErr (α × Cache × Nat) :=
  let miss : Except CacheErr (α × Cache × Nat) :=
    let fresh := fetchFunc ()
    match sErr with
    | some e => Except.error e
    | none => Except.ok (fresh, cacheSet c now ttl key (ser fresh), 1)
  match gErr with
  | some e => Except.error e
  | none =>
    match cacheGet c now key with
    | some s => if s = "" then miss else Except.ok (deser s, c, 0)
    | none => miss

/-- One in-flight `PUT /deals/:dealId/stage` request in the concurrency
model: its target stage, a program counter over the handler's three
statements on the deal (the SELECT that reads the current stage, the
UPDATE, and the history INSERT), and the `deal.pipeline_stage_id` value
captured by its SELECT. -/
structure Session where
  target : Nat
  pc : Nat
  captured : Nat
deriving DecidableEq

/-- Shared state for two concurrent transition requests against the same
deal: the deal's current stage column and the `deal_stage_history` rows
`(from_stage_id, to_stage_id)` in insertion order. -/
structure ConcState where
  dealStage : Nat
  history : List (Nat × Nat)
  s1 : Session
  s2 : Session
deriving DecidableEq

/-- Advance one session by one statement.  The handler issues a plain
`SELECT` with no `FOR UPDATE`, so under READ COMMITTED a session's read
never blocks on the other session; each statement is individually atomic.
pc 0: the SELECT captures `deal.pipeline_stage_id`; pc 1: the UPDATE sets
the stage to the session's target; pc 2: the INSERT appends the history
row built from the value captured at pc 0. -/
def stepSession (st : ConcState) (s : Session) : ConcState × Session :=
  if s.pc = 0 then
    (st, { s with pc := 1, captured := st.dealStage })
  else if s.pc = 1 then
    ({ st with dealStage := s.target }, { s with pc := 2 })
  else if s.pc = 2 then
    ({ st with history := st.history ++ [(s.captured, s.target)] }, { s with pc := 3 })
  else (st, s)

/-- Run one scheduler choice: `false` steps session 1, `true` steps
session 2. -/
def stepChoice (st : ConcState) (which : Bool) : ConcState :=
  if which then
    let r := stepSession st st.s2
    { r.1 with s2 := r.2 }
  else
    let r := stepSession st st.s1
    { r.1 with s1 := r.2 }

/-- Run a whole interleaving of the two requests. -/
def runSched (st : ConcState) (sched : List Bool) : ConcState :=
  sched.foldl stepChoice st

/-- Folding the executor over a list of rules; `processAutomationRules`
is this fold applied to the selected rules. -/
def execFold (oracle : Nat → Option String) (dealId userId : Nat)
    (l : List AutomationRule) (db : DB) : DB :=
  l.foldl (fun d r => executeAutomationRule oracle d r dealId userId) db

theorem processAutomationRules_eq_execFold (oracle : Nat → Option String)
    (db : DB) (dealId fromStageId toStageId userId : Nat) :
    processAutomationRules oracle db dealId fromStageId toStageId userId
      = execFold oracle dealId userId
          (selectRules db.automation_rules fromStageId toStageId) db := rfl

theorem map_keep (l : List Deal) (dealId : Nat) :
    l.map (fun d => if d.id = dealId
      then { d with probability := d.probability } else d) = l := by
  induction l with
  | nil => rfl
  | cons a t ih =>
    simp only [List.map_cons, ih]
    split_ifs <;> rfl

theorem exec_log (oracle : Nat → Option String) (db : DB) (r : AutomationRule)
    (dealId userId : Nat) :
    (executeAutomationRule oracle db r dealId userId).automation_log
      = db.automation_log ++ [logRowFor oracle r dealId userId] := by
  cases h : oracle r.id with
  | some msg => simp [executeAutomationRule, logRowFor, h]
  | none =>
    simp only [executeAutomationRule, logRowFor, h]
    split_ifs <;> rfl

theorem exec_history (oracle : Nat → Option String) (db : DB) (r : AutomationRule)
    (dealId userId : Nat) :
    (executeAutomationRule oracle db r dealId userId).history = db.history := by
  cases h : oracle r.id with
  | some msg => simp [executeAutomationRule, h]
  | none =>
    simp only [executeAutomationRule, h]
    split_ifs <;> rfl

theorem exec_deals (oracle : Nat → Option String) (db : DB) (r : AutomationRule)
    (dealId userId : Nat) :
    (executeAutomationRule oracle db r dealId userId).deals
      = db.deals.map (fun d => if d.id = dealId
          then { d with probability := probStep oracle d.probability r } else d) := by
  cases h : oracle r.id with
  | some msg =>
    simp only [executeAutomationRule, h, probStep]
    exact (map_keep db.deals dealId).symm
  | none =>
    by_cases hupd : r.action_type = "update_probability"
    · simp [executeAutomationRule, h, probStep, hupd]
    · by_cases hct : r.action_type = "create_task"
      · simp [executeAutomationRule, h, probStep, hct, hupd]
      · by_cases hse : r.action_type = "send_email"
        · simp [executeAutomationRule, h, probStep, hse, hupd]
        · simp [executeAutomationRule, h, probStep, hct, hse, hupd]

theorem execFold_log (oracle : Nat → Option String) (dealId userId : Nat)
    (l : List AutomationRule) (db : DB) :
    (execFold oracle dealId userId l db).automation_log
      = db.automation_log ++ l.map (fun r => logRowFor oracle r dealId userId) := by
  induction l generalizing db with
  | nil => simp [execFold]
  | cons r t ih =>
    have h1 : execFold oracle dealId userId (r :: t) db
        = execFold oracle dealId userId t
            (executeAutomationRule oracle db r dealId userId) := rfl
    rw [h1, ih, exec_log]
    simp

theorem execFold_history (oracle : Nat → Option String) (dealId userId : Nat)
    (l : List AutomationRule) (db : DB) :
    (execFold oracle dealId userId l db).history = db.history := by
  induction l generalizing db with
  | nil => rfl
  | cons r t ih =>
    have h1 : execFold oracle dealId userId (r :: t) db
        = execFold oracle dealId userId t
            (executeAutomationRule oracle db r dealId userId) := rfl
    rw [h1, ih, exec_history]

theorem execFold_deals (oracle : Nat → Option String) (dealId userId : Nat)
    (l : List AutomationRule) (db : DB) :
    (execFold oracle dealId userId l db).deals
      = db.deals.map (fun d => if d.id = dealId
          then { d with probability := probAfter oracle d.probability l } else d) := by
  induction l generalizing db with
  | nil =>
    simp [execFold, probAfter]
  | cons r t ih =>
    have h1 : execFold oracle dealId userId (r :: t) db
        = execFold oracle dealId userId t
            (executeAutomationRule oracle db r dealId userId) := rfl
    rw [h1, ih, exec_deals, List.map_map]
    refine List.map_congr_left ?_
    intro d _
    by_cases hd : d.id = dealId
    · simp only [Function.comp_apply, hd, if_true, if_pos]
      rfl
    · simp only [Function.comp_apply, hd, if_false]

theorem probAfter_no_update (oracle : Nat → Option String) (p : Rat)
    (l : List AutomationRule)
    (h : ∀ r ∈ l, r.action_type ≠ "update_probability") :
    probAfter oracle p l = p := by
  induction l generalizing p with
  | nil => rfl
  | cons r t ih =>
    have hr : r.action_type ≠ "update_probability" := h r (List.mem_cons_self r t)
    have hstep : probStep oracle p r = p := by
      cases h2 : oracle r.id <;> simp [probStep, h2, hr]
    have h3 : probAfter oracle p (r :: t) = probAfter oracle (probStep oracle p r) t := rfl
    rw [h3, hstep]
    exact ih p (fun r2 hr2 => h r2 (List.mem_cons_of_mem r hr2))

theorem probAfter_last_update (oracle : Nat → Option String) (p : Rat)
    (l1 l2 : List AutomationRule) (u : AutomationRule)
    (hu : u.action_type = "update_probability")
    (hok : oracle u.id = none)
    (hl2 : ∀ r ∈ l2, r.action_type ≠ "update_probability") :
    probAfter oracle p (l1 ++ u :: l2) = u.action_data.probability := by
  have h1 : probAfter oracle p (l1 ++ u :: l2)
      = probAfter oracle (probAfter oracle p l1) (u :: l2) := by
    simp [probAfter, List.foldl_append]
  have h2 : probAfter oracle (probAfter oracle p l1) (u :: l2)
      = probAfter oracle (probStep oracle (probAfter oracle p l1) u) l2 := rfl
  have h3 : probStep oracle (probAfter oracle p l1) u = u.action_data.probability := by
    simp [probStep, hok, hu]
  rw [h1, h2, h3, probAfter_no_update oracle _ l2 hl2]

theorem transitionStage_success (oracle : Nat → Option String) (db : DB)
    (dealId : Nat) (body : Body) (user : ReqUser)
    (deal : Deal) (psCur psNew : Stage)
    (hv : validateBody body = true)
    (hd : findDeal db.deals dealId = some deal)
    (hc : findStage db.stages deal.pipeline_stage_id = some psCur)
    (hn : findStage db.stages body.stage_id.toNat = some psNew)
    (hp : deal.assigned_user_id = user.userId ∨ user.role = "admin") :
    transitionStage oracle db dealId body user =
      (TransitionResult.ok
        { deal with pipeline_stage_id := body.stage_id.toNat,
                    probability := psNew.win_probability }
        psCur.name psNew.name (body.trigger_automation.getD true),
       if body.trigger_automation.getD true then
         processAutomationRules oracle
           (dbAfterPrimary db dealId body.stage_id.toNat psNew.win_probability
             deal.pipeline_stage_id user.userId body.notes)
           dealId deal.pipeline_stage_id body.stage_id.toNat user.userId
       else
         dbAfterPrimary db dealId body.stage_id.toNat psNew.win_probability
           deal.pipeline_stage_id user.userId body.notes) := by
  have hperm : ¬ (deal.assigned_user_id ≠ user.userId ∧ user.role ≠ "admin") := by
    rcases hp with h | h
    · exact fun h2 => h2.1 h
    · exact fun h2 => h2.2 h
  simp [transitionStage, hv, hd, hc, hn, hperm]

theorem dbAfterPrimary_deals (db : DB) (dealId stageId : Nat) (winProb : Rat)
    (fromS userId : Nat) (notes : Option String) :
    (dbAfterPrimary db dealId stageId winProb fromS userId notes).deals
      = db.deals.map (fun d => if d.id = dealId
          then { d with pipeline_stage_id := stageId, probability := winProb }
          else d) := rfl

theorem dbAfterPrimary_history (db : DB) (dealId stageId : Nat) (winProb : Rat)
    (fromS userId : Nat) (notes : Option String) :
    (dbAfterPrimary db dealId stageId winProb fromS userId notes).history
      = db.history ++
        [{ deal_id := dealId, from_stage_id := fromS, to_stage_id := stageId,
           changed_by_user_id := userId, notes := jsOrStr notes "" }] := rfl

theorem dbAfterPrimary_log (db : DB) (dealId stageId : Nat) (winProb : Rat)
    (fromS userId : Nat) (notes : Option String) :
    (dbAfterPrimary db dealId stageId winProb fromS userId notes).automation_log
      = db.automation_log := rfl

theorem dbAfterPrimary_rules (db : DB) (dealId stageId : Nat) (winProb : Rat)
    (fromS userId : Nat) (notes : Option String) :
    (dbAfterPrimary db dealId stageId winProb fromS userId notes).automation_rules
      = db.automation_rules := rfl

theorem processAutomationRules_log (oracle : Nat → Option String) (db : DB)
    (dealId fromStageId toStageId userId : Nat) :
    (processAutomationRules oracle db dealId fromStageId toStageId userId).automation_log
      = db.automation_log ++
        (selectRules db.automation_rules fromStageId toStageId).map
          (fun r => logRowFor oracle r dealId userId) :=
  execFold_log oracle dealId userId _ db

theorem processAutomationRules_history (oracle : Nat → Option String) (db : DB)
    (dealId fromStageId toStageId userId : Nat) :
    (processAutomationRules oracle db dealId fromStageId toStageId userId).history
      = db.history :=
  execFold_history oracle dealId userId _ db

theorem processAutomationRules_deals (oracle : Nat → Option String) (db : DB)
    (dealId fromStageId toStageId userId : Nat) :
    (processAutomationRules oracle db dealId fromStageId toStageId userId).deals
      = db.deals.map (fun d => if d.id = dealId
          then { d with probability := (probAfter oracle d.probability
                  (selectRules db.automation_rules fromStageId toStageId)) }
          else d) :=
  execFold_deals oracle dealId userId _ db

theorem transition_final_history (oracle : Nat → Option String) (db : DB)
    (dealId : Nat) (body : Body) (user : ReqUser)
    (deal : Deal) (psCur psNew : Stage)
    (hv : validateBody body = true)
    (hd : findDeal db.deals dealId = some deal)
    (hc : findStage db.stages deal.pipeline_stage_id = some psCur)
    (hn : findStage db.stages body.stage_id.toNat = some psNew)
    (hp : deal.assigned_user_id = user.userId ∨ user.role = "admin") :
    (transitionStage oracle db dealId body user).2.history
      = db.history ++
        [{ deal_id := dealId, from_stage_id := deal.pipeline_stage_id,
           to_stage_id := body.stage_id.toNat,
           changed_by_user_id := user.userId, notes := jsOrStr body.notes "" }] := by
  rw [transitionStage_success oracle db dealId body user deal psCur psNew hv hd hc hn hp]
  by_cases ht : body.trigger_automation.getD true = true
  · dsimp only
    rw [if_pos ht, processAutomationRules_history, dbAfterPrimary_history]
  · dsimp only
    rw [if_neg ht, dbAfterPrimary_history]

theorem transition_final_log (oracle : Nat → Option String) (db : DB)
    (dealId : Nat) (body : Body) (user : ReqUser)
    (deal : Deal) (psCur psNew : Stage)
    (hv : validateBody body = true)
    (hd : findDeal db.deals dealId = some deal)
    (hc : findStage db.stages deal.pipeline_stage_id = some psCur)
    (hn : findStage db.stages body.stage_id.toNat = some psNew)
    (hp : deal.assigned_user_id = user.userId ∨ user.role = "admin")
    (ht : body.trigger_automation.getD true = true) :
    (transitionStage oracle db dealId body user).2.automation_log
      = db.automation_log ++
        (selectRules db.automation_rules deal.pipeline_stage_id body.stage_id.toNat).map
          (fun r => logRowFor oracle r dealId user.userId) := by
  rw [transitionStage_success oracle db dealId body user deal psCur psNew hv hd hc hn hp]
  dsimp only
  rw [if_pos ht, processAutomationRules_log, dbAfterPrimary_log, dbAfterPrimary_rules]

theorem transition_final_deal_fields (oracle : Nat → Option String) (db : DB)
    (dealId : Nat) (body : Body) (user : ReqUser)
    (deal : Deal) (psCur psNew : Stage)
    (hv : validateBody body = true)
    (hd : findDeal db.deals dealId = some deal)
    (hc : findStage db.stages deal.pipeline_stage_id = some psCur)
    (hn : findStage db.stages body.stage_id.toNat = some psNew)
    (hp : deal.assigned_user_id = user.userId ∨ user.role = "admin")
    (ht : body.trigger_automation.getD true = true) :
    ∀ d ∈ (transitionStage oracle db dealId body user).2.deals,
      d.id = dealId →
        d.pipeline_stage_id = body.stage_id.toNat ∧
        d.probability = (probAfter oracle psNew.win_probability
          (selectRules db.automation_rules deal.pipeline_stage_id body.stage_id.toNat)) := by
  rw [transitionStage_success oracle db dealId body user deal psCur psNew hv hd hc hn hp]
  dsimp only
  rw [if_pos ht, processAutomationRules_deals, dbAfterPrimary_rules, dbAfterPrimary_deals,
    List.map_map]
  intro d hdm hdid
  rcases List.mem_map.mp hdm with ⟨d0, hd0, hfd⟩
  by_cases h0 : d0.id = dealId
  · rw [← hfd]
    simp [Function.comp, h0]
  · rw [← hfd] at hdid
    simp [Function.comp, h0] at hdid

/-- Fixture: the `Lead` stage of the worked example (order 1, prob 0.1). -/
def stageLead : Stage :=
  { id := 1, name := "Lead", display_order := 1, win_probability := 1/10,
    is_active := true }

/-- Fixture: the `Qualified` stage of the worked example (order 2, prob 0.25). -/
def stageQualified : Stage :=
  { id := 2, name := "Qualified", display_order := 2, win_probability := 1/4,
    is_active := true }

/-- Fixture: the `Proposal` stage of the worked example (order 3, prob 0.5). -/
def stageProposal : Stage :=
  { id := 3, name := "Proposal", display_order := 3, win_probability := 1/2,
    is_active := true }

/-- Fixture: a deal of value 10000 sitting in `Lead`, assigned to user 7. -/
def dealEx : Deal :=
  { id := 1, assigned_user_id := 7, pipeline_stage_id := 1, value := 10000,
    probability := 1/10, status := "open" }

/-- Fixture: `action_data` carrying `probability = 0.6`. -/
def adProb : ActionData :=
  { probability := 3/5, title := none, description := none,
    assigned_user_id := none, days_from_now := none, recipient_user_id := none,
    template := none }

/-- Fixture: active rule Lead→Proposal with action `update_probability`, 0.6. -/
def ruleEx : AutomationRule :=
  { id := 1, name := "bump", from_stage_id := some 1, to_stage_id := some 3,
    action_type := "update_probability", action_data := adProb, priority := 10,
    is_active := true }

/-- Fixture: the deal's assigned user. -/
def userEx : ReqUser := { userId := 7, role := "sales_rep" }

/-- Fixture database of the worked example. -/
def dbEx : DB :=
  { stages := [stageLead, stageQualified, stageProposal], deals := [dealEx],
    automation_rules := [ruleEx], history := [], automation_log := [],
    activities := [], email_queue := [] }

/-- Fixture body: move to `Proposal` with automation on. -/
def bodyToProposal : Body :=
  { stage_id := 3, notes := none, trigger_automation := some true }

/-- Fixture body: move to `Qualified` with automation on. -/
def bodyToQualified : Body :=
  { stage_id := 2, notes := none, trigger_automation := some true }

/-- Error oracle: no rule action throws. -/
def oracleNone : Nat → Option String := fun _ => none

/-- Error oracle: the action query of rule 1 throws with message `boom`. -/
def oracleFail1 : Nat → Option String := fun i => if i = 1 then some "boom" else none

/-- C3: for a deal transitioning to an active stage where no selected active
automation rule has `action_type = update_probability`, the deal's
probability in the committed database equals the target stage's
`win_probability` exactly. -/
theorem no_update_rule_probability_eq_stage_default
    (oracle : Nat → Option String) (db : DB) (dealId : Nat) (body : Body)
    (user : ReqUser) (deal : Deal) (psCur psNew : Stage)
    (hv : validateBody body = true)
    (hd : findDeal db.deals dealId = some deal)
    (hc : findStage db.stages deal.pipeline_stage_id = some psCur)
    (hn : findStage db.stages body.stage_id.toNat = some psNew)
    (_hact : psNew.is_active = true)
    (hp : deal.assigned_user_id = user.userId ∨ user.role = "admin")
    (hnone : ∀ r ∈ selectRules db.automation_rules deal.pipeline_stage_id
        body.stage_id.toNat, r.action_type ≠ "update_probability") :
    ∀ d ∈ (transitionStage oracle db dealId body user).2.deals,
      d.id = dealId → d.probability = psNew.win_probability := by
  intro d hdm hdid
  by_cases ht : body.trigger_automation.getD true = true
  · have h2 := transition_final_deal_fields oracle db dealId body user deal psCur psNew
      hv hd hc hn hp ht d hdm hdid
    rw [h2.2, probAfter_no_update oracle _ _ hnone]
  · rw [transitionStage_success oracle db dealId body user deal psCur psNew
      hv hd hc hn hp] at hdm
    dsimp only at hdm
    rw [if_neg ht, dbAfterPrimary_deals] at hdm
    rcases List.mem_map.mp hdm with ⟨d0, hd0, hfd⟩
    by_cases h0 : d0.id = dealId
    · rw [← hfd]
      simp [h0]
    · rw [← hfd] at hdid
      simp [h0] at hdid

/-- C3 witness: moving the example deal from `Lead` to `Qualified` (target
default 0.25) with only the Lead→Proposal rule configured — no rule matches,
so the committed probability is 0.25. -/
theorem no_update_rule_probability_eq_stage_default_witness :
    ∃ d ∈ (transitionStage oracleNone dbEx 1 bodyToQualified userEx).2.deals,
      d.id = 1 ∧ d.probability = 1/4 :=
  ⟨{ dealEx with pipeline_stage_id := 2, probability := 1/4 },
   List.Mem.head _, rfl,
   no_update_rule_probability_eq_stage_default oracleNone dbEx 1 bodyToQualified
     userEx dealEx stageLead stageQualified rfl rfl rfl rfl rfl (Or.inl rfl)
     (by
       have hsel : selectRules dbEx.automation_rules dealEx.pipeline_stage_id
           bodyToQualified.stage_id.toNat = ([] : List AutomationRule) := rfl
       rw [hsel]
       intro r hr
       exact absurd hr (List.not_mem_nil r))
     { dealEx with pipeline_stage_id := 2, probability := 1/4 }
     (List.Mem.head _) rfl⟩

/-- C1: when automation is triggered and one selected rule's execution
throws, the transition still commits: the handler returns 200, the deal's
stage update and the history row are in the final database, the failing
rule's automation-log row says `failed` and carries the (non-null) error
message, and every other selected rule still got its own log row. -/
theorem failing_rule_does_not_abort_transition
    (oracle : Nat → Option String) (db : DB) (dealId : Nat) (body : Body)
    (user : ReqUser) (deal : Deal) (psCur psNew : Stage)
    (r : AutomationRule) (msg : String)
    (hv : validateBody body = true)
    (hd : findDeal db.deals dealId = some deal)
    (hc : findStage db.stages deal.pipeline_stage_id = some psCur)
    (hn : findStage db.stages body.stage_id.toNat = some psNew)
    (hp : deal.assigned_user_id = user.userId ∨ user.role = "admin")
    (ht : body.trigger_automation.getD true = true)
    (hr : r ∈ selectRules db.automation_rules deal.pipeline_stage_id body.stage_id.toNat)
    (hf : oracle r.id = some msg) :
    (transitionStage oracle db dealId body user).1
      = TransitionResult.ok
          { deal with pipeline_stage_id := body.stage_id.toNat,
                      probability := psNew.win_probability }
          psCur.name psNew.name true
    ∧ (transitionStage oracle db dealId body user).2.history
      = db.history ++
        [{ deal_id := dealId, from_stage_id := deal.pipeline_stage_id,
           to_stage_id := body.stage_id.toNat, changed_by_user_id := user.userId,
           notes := jsOrStr body.notes "" }]
    ∧ (∀ d ∈ (transitionStage oracle db dealId body user).2.deals,
        d.id = dealId → d.pipeline_stage_id = body.stage_id.toNat)
    ∧ ({ rule_id := r.id, deal_id := dealId, executed_by_user_id := user.userId,
         execution_result := "failed", error_message := some msg } : LogRow)
        ∈ (transitionStage oracle db dealId body user).2.automation_log
    ∧ (transitionStage oracle db dealId body user).2.automation_log
      = db.automation_log ++
        (selectRules db.automation_rules deal.pipeline_stage_id body.stage_id.toNat).map
          (fun r2 => logRowFor oracle r2 dealId user.userId) := by
  have hlog := transition_final_log oracle db dealId body user deal psCur psNew
    hv hd hc hn hp ht
  refine ⟨?_, ?_, ?_, ?_, hlog⟩
  · rw [transitionStage_success oracle db dealId body user deal psCur psNew hv hd hc hn hp]
    dsimp only
    rw [ht]
  · exact transition_final_history oracle db dealId body user deal psCur psNew hv hd hc hn hp
  · intro d hdm hdid
    exact (transition_final_deal_fields oracle db dealId body user deal psCur psNew
      hv hd hc hn hp ht d hdm hdid).1
  · rw [hlog]
    refine List.mem_append.mpr (Or.inr ?_)
    have hrow : ({ rule_id := r.id, deal_id := dealId,
                   executed_by_user_id := user.userId,
                   execution_result := "failed",
                   error_message := some msg } : LogRow)
        = logRowFor oracle r dealId user.userId := by
      simp [logRowFor, hf]
    rw [hrow]
    exact List.mem_map_of_mem _ hr

/-- C1 witness: rule 1 (Lead→Proposal) throws `boom`; the transition to
`Proposal` still returns 200, commits the stage update and the history row,
and logs exactly one `failed` row with the message. -/
theorem failing_rule_does_not_abort_transition_witness :
    (transitionStage oracleFail1 dbEx 1 bodyToProposal userEx).1
      = TransitionResult.ok
          { dealEx with pipeline_stage_id := 3, probability := 1/2 }
          "Lead" "Proposal" true
    ∧ (transitionStage oracleFail1 dbEx 1 bodyToProposal userEx).2.history
      = [{ deal_id := 1, from_stage_id := 1, to_stage_id := 3,
           changed_by_user_id := 7, notes := "" }]
    ∧ (∀ d ∈ (transitionStage oracleFail1 dbEx 1 bodyToProposal userEx).2.deals,
        d.id = 1 → d.pipeline_stage_id = 3)
    ∧ ({ rule_id := 1, deal_id := 1, executed_by_user_id := 7,
         execution_result := "failed", error_message := some "boom" } : LogRow)
        ∈ (transitionStage oracleFail1 dbEx 1 bodyToProposal userEx).2.automation_log
    ∧ (transitionStage oracleFail1 dbEx 1 bodyToProposal userEx).2.automation_log
      = [ruleEx].map (fun r2 => logRowFor oracleFail1 r2 1 7) :=
  failing_rule_does_not_abort_transition oracleFail1 dbEx 1 bodyToProposal userEx
    dealEx stageLead stageProposal ruleEx "boom" rfl rfl rfl rfl (Or.inl rfl) rfl
    (List.Mem.head _) rfl

/-- C4: when the selected rules contain an `update_probability` rule `u`
whose execution succeeds and after which no further `update_probability`
rule runs, the committed deal's probability equals `u.action_data.probability`
(superseding the stage default written in step 3), exactly one history row
is appended, and `u`'s log row records success. -/
theorem update_probability_rule_overrides_default
    (oracle : Nat → Option String) (db : DB) (dealId : Nat) (body : Body)
    (user : ReqUser) (deal : Deal) (psCur psNew : Stage)
    (l1 : List AutomationRule) (u : AutomationRule) (l2 : List AutomationRule)
    (hv : validateBody body = true)
    (hd : findDeal db.deals dealId = some deal)
    (hc : findStage db.stages deal.pipeline_stage_id = some psCur)
    (hn : findStage db.stages body.stage_id.toNat = some psNew)
    (hp : deal.assigned_user_id = user.userId ∨ user.role = "admin")
    (ht : body.trigger_automation.getD true = true)
    (hsel : selectRules db.automation_rules deal.pipeline_stage_id body.stage_id.toNat
      = l1 ++ u :: l2)
    (hu : u.action_type = "update_probability")
    (hok : oracle u.id = none)
    (hl2 : ∀ r ∈ l2, r.action_type ≠ "update_probability") :
    (∀ d ∈ (transitionStage oracle db dealId body user).2.deals,
      d.id = dealId → d.probability = u.action_data.probability)
    ∧ (transitionStage oracle db dealId body user).2.history
      = db.history ++
        [{ deal_id := dealId, from_stage_id := deal.pipeline_stage_id,
           to_stage_id := body.stage_id.toNat, changed_by_user_id := user.userId,
           notes := jsOrStr body.notes "" }]
    ∧ (transitionStage oracle db dealId body user).2.automation_log
      = db.automation_log ++
        (l1 ++ u :: l2).map (fun r => logRowFor oracle r dealId user.userId)
    ∧ logRowFor oracle u dealId user.userId
      = { rule_id := u.id, deal_id := dealId, executed_by_user_id := user.userId,
          execution_result := "success", error_message := none } := by
  refine ⟨?_, ?_, ?_, ?_⟩
  · intro d hdm hdid
    have h2 := transition_final_deal_fields oracle db dealId body user deal psCur psNew
      hv hd hc hn hp ht d hdm hdid
    rw [h2.2, hsel, probAfter_last_update oracle _ l1 l2 u hu hok hl2]
  · exact transition_final_history oracle db dealId body user deal psCur psNew hv hd hc hn hp
  · rw [transition_final_log oracle db dealId body user deal psCur psNew hv hd hc hn hp ht,
      hsel]
  · simp [logRowFor, hok]

/-- C4 witness: the worked example of spec §8 — deal of value 10000 in
`Lead`, transition to `Proposal` (stage default 0.5) with the matching
`update_probability` rule carrying 0.6: the committed probability is 0.6,
there is exactly one history row Lead→Proposal, and one success log row. -/
theorem update_probability_rule_overrides_default_witness :
    (∀ d ∈ (transitionStage oracleNone dbEx 1 bodyToProposal userEx).2.deals,
      d.id = 1 → d.probability = 3/5)
    ∧ (transitionStage oracleNone dbEx 1 bodyToProposal userEx).2.history
      = [{ deal_id := 1, from_stage_id := 1, to_stage_id := 3,
           changed_by_user_id := 7, notes := "" }]
    ∧ (transitionStage oracleNone dbEx 1 bodyToProposal userEx).2.automation_log
      = [ruleEx].map (fun r => logRowFor oracleNone r 1 7)
    ∧ logRowFor oracleNone ruleEx 1 7
      = { rule_id := 1, deal_id := 1, executed_by_user_id := 7,
          execution_result := "success", error_message := none } :=
  update_probability_rule_overrides_default oracleNone dbEx 1 bodyToProposal userEx
    dealEx stageLead stageProposal [] ruleEx [] rfl rfl rfl rfl (Or.inl rfl) rfl rfl
    rfl rfl
    (by intro r hr; exact absurd hr (List.not_mem_nil r))

/-- C6: on a committed transition with automation triggered, the final
automation log is the initial log extended by exactly one row per selected
rule — so N selected rules yield exactly N new rows, each tagged with its
rule's id and the deal, regardless of each execution's outcome. -/
theorem one_log_row_per_selected_rule
    (oracle : Nat → Option String) (db : DB) (dealId : Nat) (body : Body)
    (user : ReqUser) (deal : Deal) (psCur psNew : Stage)
    (hv : validateBody body = true)
    (hd : findDeal db.deals dealId = some deal)
    (hc : findStage db.stages deal.pipeline_stage_id = some psCur)
    (hn : findStage db.stages body.stage_id.toNat = some psNew)
    (hp : deal.assigned_user_id = user.userId ∨ user.role = "admin")
    (ht : body.trigger_automation.getD true = true) :
    (transitionStage oracle db dealId body user).2.automation_log
      = db.automation_log ++
        (selectRules db.automation_rules deal.pipeline_stage_id body.stage_id.toNat).map
          (fun r => logRowFor oracle r dealId user.userId)
    ∧ (transitionStage oracle db dealId body user).2.automation_log.length
      = db.automation_log.length +
        (selectRules db.automation_rules deal.pipeline_stage_id body.stage_id.toNat).length
    ∧ (∀ r ∈ selectRules db.automation_rules deal.pipeline_stage_id body.stage_id.toNat,
        (logRowFor oracle r dealId user.userId).rule_id = r.id
        ∧ (logRowFor oracle r dealId user.userId).deal_id = dealId) := by
  have hlog := transition_final_log oracle db dealId body user deal psCur psNew
    hv hd hc hn hp ht
  refine ⟨hlog, ?_, ?_⟩
  · rw [hlog]
    simp
  · intro r hr
    cases h2 : oracle r.id <;> simp [logRowFor, h2]

/-- C6 witness: the example transition to `Proposal` is matched by exactly
one rule whose execution fails, and the final log still holds exactly one
row, tagged with the rule and the deal. -/
theorem one_log_row_per_selected_rule_witness :
    (transitionStage oracleFail1 dbEx 1 bodyToProposal userEx).2.automation_log
      = [ruleEx].map (fun r => logRowFor oracleFail1 r 1 7)
    ∧ (transitionStage oracleFail1 dbEx 1 bodyToProposal userEx).2.automation_log.length
      = 0 + (selectRules dbEx.automation_rules 1 3).length
    ∧ (∀ r ∈ selectRules dbEx.automation_rules 1 3,
        (logRowFor oracleFail1 r 1 7).rule_id = r.id
        ∧ (logRowFor oracleFail1 r 1 7).deal_id = 1) :=
  one_log_row_per_selected_rule oracleFail1 dbEx 1 bodyToProposal userEx
    dealEx stageLead stageProposal rfl rfl rfl rfl (Or.inl rfl) rfl

/-- C10: the deal object of the 200 response is the row captured by the
step-3 UPDATE, taken before automation runs; so on a transition matched by
a successful `update_probability` rule whose payload differs from the
target stage's default, the response reports `probability =
psNew.win_probability` while the committed row holds the rule's value —
they disagree in exactly this situation. -/
theorem response_disagrees_with_committed_probability
    (oracle : Nat → Option String) (db : DB) (dealId : Nat) (body : Body)
    (user : ReqUser) (deal : Deal) (psCur psNew : Stage)
    (l1 : List AutomationRule) (u : AutomationRule) (l2 : List AutomationRule)
    (hv : validateBody body = true)
    (hd : findDeal db.deals dealId = some deal)
    (hc : findStage db.stages deal.pipeline_stage_id = some psCur)
    (hn : findStage db.stages body.stage_id.toNat = some psNew)
    (hp : deal.assigned_user_id = user.userId ∨ user.role = "admin")
    (ht : body.trigger_automation.getD true = true)
    (hsel : selectRules db.automation_rules deal.pipeline_stage_id body.stage_id.toNat
      = l1 ++ u :: l2)
    (hu : u.action_type = "update_probability")
    (hok : oracle u.id = none)
    (hl2 : ∀ r ∈ l2, r.action_type ≠ "update_probability")
    (hne : u.action_data.probability ≠ psNew.win_probability) :
    (transitionStage oracle db dealId body user).1
      = TransitionResult.ok
          { deal with pipeline_stage_id := body.stage_id.toNat,
                      probability := psNew.win_probability }
          psCur.name psNew.name true
    ∧ (∀ d ∈ (transitionStage oracle db dealId body user).2.deals,
        d.id = dealId →
          d.probability = u.action_data.probability
          ∧ d.probability ≠ psNew.win_probability) := by
  constructor
  · rw [transitionStage_success oracle db dealId body user deal psCur psNew hv hd hc hn hp]
    dsimp only
    rw [ht]
  · intro d hdm hdid
    have h2 := transition_final_deal_fields oracle db dealId body user deal psCur psNew
      hv hd hc hn hp ht d hdm hdid
    have h3 : d.probability = u.action_data.probability := by
      rw [h2.2, hsel, probAfter_last_update oracle _ l1 l2 u hu hok hl2]
    exact ⟨h3, by rw [h3]; exact hne⟩

/-- C10 witness: in the worked example the response's deal carries the
stage default 0.5 while the committed row holds the rule's 0.6. -/
theorem response_disagrees_with_committed_probability_witness :
    (transitionStage oracleNone dbEx 1 bodyToProposal userEx).1
      = TransitionResult.ok
          { dealEx with pipeline_stage_id := 3, probability := 1/2 }
          "Lead" "Proposal" true
    ∧ (∀ d ∈ (transitionStage oracleNone dbEx 1 bodyToProposal userEx).2.deals,
        d.id = 1 → d.probability = 3/5 ∧ d.probability ≠ 1/2) :=
  response_disagrees_with_committed_probability oracleNone dbEx 1 bodyToProposal
    userEx dealEx stageLead stageProposal [] ruleEx [] rfl rfl rfl rfl (Or.inl rfl)
    rfl rfl rfl rfl
    (by intro r hr; exact absurd hr (List.not_mem_nil r))
    (by
      show ¬ ((3 : Rat)/5 = 1/2)
      norm_num)

/-- Fixture: an inactive stage, used as a transition target. -/
def stageClosed : Stage :=
  { id := 5, name := "Closed", display_order := 9, win_probability := 9/10,
    is_active := false }

/-- Fixture database whose only non-`Lead` stage is inactive. -/
def dbC2 : DB :=
  { stages := [stageLead, stageClosed], deals := [dealEx], automation_rules := [],
    history := [], automation_log := [], activities := [], email_queue := [] }

/-- Fixture body: move to the inactive stage 5. -/
def bodyToClosed : Body :=
  { stage_id := 5, notes := none, trigger_automation := some false }

/-- Fixture body failing Joi validation (`stage_id` not positive). -/
def bodyBad : Body :=
  { stage_id := 0, notes := none, trigger_automation := none }

/-- Fixture: an authenticated non-admin user who does not own the deal. -/
def strangerEx : ReqUser := { userId := 8, role := "sales_rep" }

/-- C2 counterexample: transitioning the example deal to an inactive stage
returns 200 and mutates the database — the deal row moves to the inactive
stage and a history row persists — where the claim requires an error with
no mutation (the handler's SELECT has no `is_active` condition on the
target stage). -/
theorem inactive_target_stage_transition_succeeds :
    stageClosed.is_active = false
    ∧ (transitionStage oracleNone dbC2 1 bodyToClosed userEx).1
      = TransitionResult.ok
          { dealEx with pipeline_stage_id := 5, probability := 9/10 }
          "Lead" "Closed" false
    ∧ (transitionStage oracleNone dbC2 1 bodyToClosed userEx).2.deals
      = [{ dealEx with pipeline_stage_id := 5, probability := 9/10 }]
    ∧ (transitionStage oracleNone dbC2 1 bodyToClosed userEx).2.history
      = [{ deal_id := 1, from_stage_id := 1, to_stage_id := 5,
           changed_by_user_id := 7, notes := "" }]
    ∧ dbC2.history = [] :=
  ⟨rfl, rfl, rfl, rfl, rfl⟩

/-- C2 (amended): a malformed body is rejected with a 400 and no mutation;
a missing deal, a missing current stage or a missing target stage yields
404 `Deal not found` and no mutation; a requester who is neither the
assigned user nor an `admin` gets 403 and no mutation.  The target stage's
`is_active` flag is not checked. -/
theorem error_paths_leave_db_unchanged
    (oracle : Nat → Option String) (db : DB) (dealId : Nat) (body : Body)
    (user : ReqUser) :
    (validateBody body = false →
      transitionStage oracle db dealId body user = (TransitionResult.validationError, db))
    ∧ (validateBody body = true → findDeal db.deals dealId = none →
      transitionStage oracle db dealId body user = (TransitionResult.notFound, db))
    ∧ (∀ deal, validateBody body = true → findDeal db.deals dealId = some deal →
        (findStage db.stages deal.pipeline_stage_id = none
          ∨ findStage db.stages body.stage_id.toNat = none) →
      transitionStage oracle db dealId body user = (TransitionResult.notFound, db))
    ∧ (∀ deal psCur psNew, validateBody body = true →
        findDeal db.deals dealId = some deal →
        findStage db.stages deal.pipeline_stage_id = some psCur →
        findStage db.stages body.stage_id.toNat = some psNew →
        deal.assigned_user_id ≠ user.userId → user.role ≠ "admin" →
      transitionStage oracle db dealId body user = (TransitionResult.accessDenied, db)) := by
  refine ⟨?_, ?_, ?_, ?_⟩
  · intro h
    simp [transitionStage, h]
  · intro hv hnone
    simp [transitionStage, hv, hnone]
  · intro deal hv hd hcase
    rcases hcase with hc | hn2
    · cases h2 : findStage db.stages body.stage_id.toNat <;>
        simp [transitionStage, hv, hd, hc, h2]
    · cases h2 : findStage db.stages deal.pipeline_stage_id <;>
        simp [transitionStage, hv, hd, hn2, h2]
  · intro deal psCur psNew hv hd hc hn ha hb
    simp [transitionStage, hv, hd, hc, hn, ha, hb]

/-- C2 witness: the three rejected paths evaluated on the fixtures — bad
body, unknown deal id 99, and a non-owner non-admin requester — each
return the corresponding error with the database untouched. -/
theorem error_paths_leave_db_unchanged_witness :
    transitionStage oracleNone dbEx 1 bodyBad userEx
      = (TransitionResult.validationError, dbEx)
    ∧ transitionStage oracleNone dbEx 99 bodyToProposal userEx
      = (TransitionResult.notFound, dbEx)
    ∧ transitionStage oracleNone dbEx 1 bodyToProposal strangerEx
      = (TransitionResult.accessDenied, dbEx) :=
  ⟨(error_paths_leave_db_unchanged oracleNone dbEx 1 bodyBad userEx).1 rfl,
   (error_paths_leave_db_unchanged oracleNone dbEx 99 bodyToProposal userEx).2.1 rfl rfl,
   (error_paths_leave_db_unchanged oracleNone dbEx 1 bodyToProposal strangerEx).2.2.2
     dealEx stageLead stageProposal rfl rfl rfl rfl (by decide) (by decide)⟩

/-- Fixture: empty `action_data` payload. -/
def adNone : ActionData :=
  { probability := 0, title := none, description := none,
    assigned_user_id := none, days_from_now := none, recipient_user_id := none,
    template := none }

/-- Fixture: catch-all rule (both stage fields null), priority 5, created
first (id 1). -/
def ruleA : AutomationRule :=
  { id := 1, name := "emailA", from_stage_id := none, to_stage_id := none,
    action_type := "send_email", action_data := adNone, priority := 5,
    is_active := true }

/-- Fixture: catch-all rule with the same priority 5, created second (id 2). -/
def ruleB : AutomationRule :=
  { id := 2, name := "taskB", from_stage_id := none, to_stage_id := none,
    action_type := "create_task", action_data := adNone, priority := 5,
    is_active := true }

/-- Fixture rule table holding the two equal-priority rules. -/
def rulesC5 : List AutomationRule := [ruleA, ruleB]

/-- C5 counterexample: `[ruleB, ruleA]` — reverse creation order — is a
legitimate result of the selection query (right rows, sorted by priority
descending), yet its equal-priority rows are not in creation order: the
query has no secondary sort key, so the claimed tie-break is not
guaranteed. -/
theorem priority_tie_order_unspecified :
    isSelectRulesResult rulesC5 1 2 [ruleB, ruleA]
    ∧ ruleA.priority = ruleB.priority
    ∧ ruleA.id < ruleB.id
    ∧ ¬ List.Pairwise (fun a b : AutomationRule =>
        a.priority = b.priority → a.id ≤ b.id) [ruleB, ruleA] := by
  refine ⟨⟨List.Perm.swap ruleA ruleB [], ?_⟩, rfl, by decide, ?_⟩
  · refine List.pairwise_cons.mpr ⟨?_, ?_⟩
    · intro b hb
      rw [List.mem_singleton.mp hb]
      show ruleA.priority ≤ ruleB.priority
      exact le_refl _
    · exact List.pairwise_singleton _ _
  · intro h
    have h2 := (List.pairwise_cons.mp h).1 ruleA (List.mem_singleton.mpr rfl) rfl
    exact absurd h2 (by decide)

/-- Helper: the WHERE clause as a proposition. -/
theorem ruleMatches_iff (fromStageId toStageId : Nat) (r : AutomationRule) :
    ruleMatches fromStageId toStageId r = true ↔
      r.is_active = true
        ∧ (r.from_stage_id = none ∨ r.from_stage_id = some fromStageId)
        ∧ (r.to_stage_id = none ∨ r.to_stage_id = some toStageId) := by
  simp [ruleMatches, Bool.and_eq_true, Bool.or_eq_true, and_assoc]

/-- C5 (amended): the selection returns exactly the active rules whose
`from_stage_id` is null or equal to the origin and whose `to_stage_id` is
null or equal to the destination (so a rule with both fields null is
selected for every transition), returns all of them (it is a permutation
of the filtered table, not a first match), and is sorted by priority
descending; the order among rules of equal priority is left unspecified by
the query. -/
theorem selectRules_exact_matches_sorted (rules : List AutomationRule)
    (fromStageId toStageId : Nat) :
    (∀ r, r ∈ selectRules rules fromStageId toStageId ↔
      (r ∈ rules ∧ r.is_active = true
        ∧ (r.from_stage_id = none ∨ r.from_stage_id = some fromStageId)
        ∧ (r.to_stage_id = none ∨ r.to_stage_id = some toStageId)))
    ∧ List.Perm (selectRules rules fromStageId toStageId)
        (rules.filter (ruleMatches fromStageId toStageId))
    ∧ List.Sorted priorityGE (selectRules rules fromStageId toStageId)
    ∧ isSelectRulesResult rules fromStageId toStageId
        (selectRules rules fromStageId toStageId) := by
  have hperm : List.Perm (selectRules rules fromStageId toStageId)
      (rules.filter (ruleMatches fromStageId toStageId)) :=
    List.perm_insertionSort priorityGE _
  have hsorted : List.Sorted priorityGE (selectRules rules fromStageId toStageId) :=
    List.sorted_insertionSort priorityGE _
  refine ⟨?_, hperm, hsorted, hperm, hsorted⟩
  intro r
  rw [selectRules, List.mem_insertionSort, List.mem_filter, ruleMatches_iff]

/-- C7: with the cache backend healthy, a first call that misses computes
the value, stores it with expiry `t0 + ttl`, and returns it; a second call
at any `t1` within the TTL window, with no intervening writes, returns the
identical value from the cache without invoking `fetchFunc` (the third
component counts `fetchFunc` invocations: 1 then 0).  The hypotheses on
`ser`/`deser` say the value survives the JSON round trip and serializes to
a non-empty (truthy) string, as the overview object does. -/
theorem cache_second_call_within_ttl {α : Type} (ser : α → String)
    (deser : String → α) (key : String) (fetchFunc : Unit → α) (ttl : Nat)
    (c : Cache) (t0 t1 : Nat)
    (hmiss : cacheGet c t0 key = none)
    (hrt : deser (ser (fetchFunc ())) = fetchFunc ())
    (hne : ser (fetchFunc ()) ≠ "")
    (h1 : t1 < t0 + ttl) :
    getOrSetCache none none ser deser key fetchFunc ttl c t0
      = Except.ok (fetchFunc (), cacheSet c t0 ttl key (ser (fetchFunc ())), 1)
    ∧ getOrSetCache none none ser deser key fetchFunc ttl
        (cacheSet c t0 ttl key (ser (fetchFunc ()))) t1
      = Except.ok (fetchFunc (), cacheSet c t0 ttl key (ser (fetchFunc ())), 0) := by
  constructor
  · simp [getOrSetCache, hmiss]
  · have hget : cacheGet (cacheSet c t0 ttl key (ser (fetchFunc ()))) t1 key
        = some (ser (fetchFunc ())) := by
      simp [cacheGet, cacheSet, List.find?, h1]
    simp [getOrSetCache, hget, hne, hrt]

/-- C7 witness: a string-valued compute with identity serialization, key
`analytics_overview`, TTL 300, called at t=0 and t=299 on an empty cache. -/
theorem cache_second_call_within_ttl_witness :
    getOrSetCache none none (fun s : String => s) (fun s => s)
        "analytics_overview" (fun _ => "overview") 300 { entries := [] } 0
      = Except.ok ("overview",
          cacheSet { entries := [] } 0 300 "analytics_overview" "overview", 1)
    ∧ getOrSetCache none none (fun s : String => s) (fun s => s)
        "analytics_overview" (fun _ => "overview") 300
        (cacheSet { entries := [] } 0 300 "analytics_overview" "overview") 299
      = Except.ok ("overview",
          cacheSet { entries := [] } 0 300 "analytics_overview" "overview", 0) :=
  cache_second_call_within_ttl (fun s : String => s) (fun s => s)
    "analytics_overview" (fun _ => "overview") 300 { entries := [] } 0 299
    rfl rfl (by decide) (by decide)

/-- C8: `getOrSetCache` has no error handling around the redis calls, so a
cache outage fails the read instead of falling through to direct
computation: a rejected `redis.get` propagates (and the route answers 500),
and even after `fetchFunc` has computed the fresh value a rejected
`redis.set` still fails the call rather than returning the value. -/
theorem cache_outage_fails_request :
    getOrSetCache (some CacheErr.unavailable) none (fun s : String => s)
        (fun s => s) "analytics_overview" (fun _ => "overview") 300
        { entries := [] } 0
      = Except.error CacheErr.unavailable
    ∧ getOrSetCache none (some CacheErr.unavailable) (fun s : String => s)
        (fun s => s) "analytics_overview" (fun _ => "overview") 300
        { entries := [] } 0
      = Except.error CacheErr.unavailable :=
  ⟨rfl, rfl⟩

/-- C9: the handler takes no row lock (`SELECT` without `FOR UPDATE`), so
the interleaving in which both requests run their SELECT before either
UPDATE is allowed; starting from stage 1 with targets 2 and 3 it commits
two history rows that both record `from_stage_id = 1` — the second row's
`from_stage_id` (1) differs from the first row's `to_stage_id` (2),
violating the claimed serialization. -/
theorem unlocked_interleaving_same_from_stage :
    runSched
        { dealStage := 1, history := [],
          s1 := { target := 2, pc := 0, captured := 0 },
          s2 := { target := 3, pc := 0, captured := 0 } }
        [false, true, false, false, true, true]
      = { dealStage := 3, history := [(1, 2), (1, 3)],
          s1 := { target := 2, pc := 3, captured := 1 },
          s2 := { target := 3, pc := 3, captured := 1 } }
    ∧ (1, 2).1 = (1, 3).1
    ∧ (1, 3).1 ≠ (1, 2).2 := by
  refine ⟨rfl, rfl, by decide⟩

end SalesBase
